import Mathlib

/-!
Shallow embedding of `price_tracker.py` (an eBay product price tracker).

The program is a single linear pipeline: load a list of product queries from
a CSV file, fetch a rendered search page per query, scan the listing cards for
the first non-auction listing carrying a price, append one row per check to a
historical CSV store (rewritten after every check), and a separate plot mode
that loads a store, cleans prices, filters by keyword and charts the result.

Pure pieces of the program (the extractor, the price-cleaning lambda, the
limit logic, the CSV round trip, the per-iteration persistence discipline)
are translated into executable Lean definitions below; the browser fetch is
modelled as an oracle giving, per query, either the parsed listing cards or
one of the two failure modes the code catches.
-/

namespace PriceTracker

/-- Python `b in a` on strings: `hasSub hay pat` decides whether `pat` occurs
as a contiguous substring of `hay`. -/
def leadMatch : List Char → List Char → Bool
  | [], _ => true
  | _ :: _, [] => false
  | a :: as, b :: bs => a = b && leadMatch as bs

def hasSubList (pat : List Char) : List Char → Bool
  | [] => pat.isEmpty
  | c :: rest => leadMatch pat (c :: rest) || hasSubList pat rest

def hasSub (hay pat : String) : Bool :=
  hasSubList pat.toList hay.toList

/-- Python `s.lower()` (the strings involved are ASCII). -/
def lowerStr (s : String) : String :=
  String.mk (s.toList.map Char.toLower)

/-- Python `s.strip()`: drop leading and trailing whitespace. -/
def pyStrip (s : String) : String :=
  String.mk (((s.toList.dropWhile Char.isWhitespace).reverse.dropWhile
    Char.isWhitespace).reverse)

/-- The `ProductData` dataclass: one CheckResult row.  The Python field
defaults are `is_found=False`, `timestamp=time.strftime(...)` (evaluated once,
when the module loads), `product_url=None`, `status="ok"`, `notes=None`,
`price=None`. -/
structure ProductData where
  product_name : String
  is_found : Bool
  timestamp : String
  product_url : Option String
  status : String
  notes : Option String
  price : Option String
deriving DecidableEq, Repr

/-- `ProductData(name)` with every defaulted field left at its default;
`module_ts` is the timestamp string computed once at module load time. -/
def defaultProductData (module_ts : String) (name : String) : ProductData :=
  { product_name := name
    is_found := false
    timestamp := module_ts
    product_url := none
    status := "ok"
    notes := none
    price := none }

/-- One listing card (`li.s-card`), reduced to exactly the pieces the
extractor inspects: the stripped text of the
`div.su-card-container__attributes` block (if the card has one), the stripped
texts of the `span.s-card__price` elements in document order, the stripped
text of `div.s-card__title` (if present), and the `href` of the
`a.image-treatment` link (if present). -/
structure Card where
  attributesBlock : Option String
  priceSpans : List String
  titleDiv : Option String
  imageLinkHref : Option String
deriving DecidableEq, Repr

/-- Lines 100-102: the card is skipped as an auction listing when it has an
attributes block whose lowered text mentions `"bid"`. -/
def isAuctionCard (c : Card) : Bool :=
  match c.attributesBlock with
  | some t => hasSub (lowerStr t) "bid"
  | none => false

/-- Lines 105-111: scan the price spans in order and keep the first whose
text is non-empty, contains `"$"`, and does not mention `"bid"` (lowered). -/
def findPrice (spans : List String) : Option String :=
  spans.find? fun t => t ≠ "" && hasSub t "$" && !hasSub (lowerStr t) "bid"

/-- Lines 115-129: the found-result built from a qualifying card. -/
def foundResult (module_ts : String) (c : Card) (price : String) : ProductData :=
  { product_name := c.titleDiv.getD "Unknown Product"
    is_found := true
    timestamp := module_ts
    product_url := c.imageLinkHref
    status := "ok"
    notes := some ("Product found. Price: " ++ price)
    price := some price }

/-- Line 131: the result when no card qualifies. -/
def notFoundResult (module_ts : String) (query : String) : ProductData :=
  { defaultProductData module_ts query with
    is_found := false
    notes := some "Only auctions or no valid listings found." }

/-- Lines 98-131: the card scan.  Cards are visited in document order; an
auction-marked card is skipped, a card with no accepted price span is
skipped, and the first card passing both filters returns immediately. -/
def extractResult (module_ts : String) (query : String) : List Card → ProductData
  | [] => notFoundResult module_ts query
  | card :: rest =>
    if isAuctionCard card then extractResult module_ts query rest
    else
      match findPrice card.priceSpans with
      | none => extractResult module_ts query rest
      | some price => foundResult module_ts card price

/-- Outcome of the browser fetch for one query: either the parsed listing
cards of the rendered page, or one of the two failure modes the code
catches (`TimeoutException`, any other exception with message `msg`). -/
inductive FetchOutcome
  | ok (cards : List Card)
  | timeout
  | fault (msg : String)
deriving DecidableEq, Repr

/-- Lines 78-136, `check_product_existence`: guard on the driver, then fetch
and extract, converting the two caught exception classes into not-found rows
(lines 133-136).  Note that those handlers leave `status` at its default
`"ok"`; only the driver-missing guard at line 81 sets `status="error"`. -/
def check_product_existence (module_ts : String) (dr_ok : Bool) (product_query : String)
    (outcome : FetchOutcome) : ProductData :=
  if !dr_ok then
    { defaultProductData module_ts product_query with
      status := "error", notes := some "WebDriver not initialized." }
  else
    match outcome with
    | .ok cards => extractResult module_ts product_query cards
    | .timeout =>
      { defaultProductData module_ts product_query with
        is_found := false, notes := some "Timeout waiting for elements." }
    | .fault msg =>
      { defaultProductData module_ts product_query with
        is_found := false, notes := some ("Error: " ++ msg) }

/-! ### Historical store: CSV cells, load and save

`main` loads the store with `pd.read_csv` and `save_historical_data` writes
it back with `df.to_csv(index=False)`.  A file is modelled as its grid of
cell texts; loading turns each cell into an optional value (pandas reads an
empty cell, and the strings of its default NA list such as `"N/A"`, as a
missing value), and saving writes a missing value back as an empty cell and
any other value as its text. -/

/-- The relevant part of pandas' default `na_values` list: cell texts that
`read_csv` loads as missing (`NaN`). -/
def naValues : List String :=
  ["", "N/A", "NA", "n/a", "#N/A", "nan", "NaN", "null", "NULL", "None"]

/-- Loading one CSV cell: a text on the NA list becomes a missing value. -/
def read_cell (c : String) : Option String :=
  if c ∈ naValues then none else some c

/-- Writing one cell back: a missing value is written as the empty cell. -/
def write_cell : Option String → String
  | none => ""
  | some s => s

/-- `pd.read_csv`: the loaded rows of a stored file. -/
def read_csv (file : List (List String)) : List (List (Option String)) :=
  file.map (fun r => r.map read_cell)

/-- `df.to_csv`: the file written for a grid of loaded rows
(`save_historical_data`, lines 70-76). -/
def to_csv (rows : List (List (Option String))) : List (List String) :=
  rows.map (fun r => r.map write_cell)

/-! ### Price History Reporter: the price-cleaning step

Line 155:
`df['price'].apply(lambda x: float(re.sub(r'[^\d.]', '', str(x))) if pd.notnull(x) else None)`.
`float(...)` raises `ValueError` when its argument does not parse as a
decimal; the lambda has no handler for that, so an unparseable non-null
price text propagates the exception out of `plot_price_history`. -/

/-- Result of a Python expression that can raise `ValueError`. -/
inductive PyResult (α : Type)
  | ok (v : α)
  | valueError
deriving DecidableEq, Repr

/-- `re.sub(r'[^\d.]', '', s)`: drop every character that is neither a digit
nor a dot. -/
def stripNonNumeric (s : String) : String :=
  String.mk (s.toList.filter fun c => c.isDigit || c = '.')

/-- Numeric value of a digit string (most significant first). -/
def digitsVal (l : List Char) : Nat :=
  l.foldl (fun n c => 10 * n + (c.toNat - 48)) 0

/-- Split a character list at every dot (semantics of `splitOn "."`). -/
def splitDot : List Char → List (List Char)
  | [] => [[]]
  | c :: rest =>
    if c = '.' then [] :: splitDot rest
    else
      match splitDot rest with
      | [] => [[c]]
      | p :: ps => (c :: p) :: ps

/-- Python `float(s)` restricted to strings of digits and dots (the only
inputs it receives here, line 155 having already stripped everything else):
it succeeds exactly when `s` holds at least one digit and at most one dot,
and fails (`ValueError`) otherwise — in particular on the empty string. -/
def pyFloat (s : String) : PyResult ℚ :=
  let l := s.toList
  if l.all (fun c => c.isDigit || c = '.') && l.any (fun c => c.isDigit)
      && (l.filter (fun c => c = '.')).length ≤ 1 then
    match splitDot l with
    | [intPart] => .ok (digitsVal intPart)
    | [intPart, fracPart] =>
      .ok ((digitsVal intPart : ℚ)
        + (digitsVal fracPart : ℚ) / (10 : ℚ) ^ fracPart.length)
    | _ => .valueError
  else .valueError

/-- The cleaning lambda of line 155 applied to one loaded price cell:
`None` for a missing value, otherwise `float` of the stripped text —
which raises when the stripped text is not a decimal. -/
def price_clean (x : Option String) : PyResult (Option ℚ) :=
  match x with
  | none => .ok none
  | some s =>
    match pyFloat (stripNonNumeric s) with
    | .ok v => .ok (some v)
    | .valueError => .valueError

/-! ### CLI arguments, limit, and the `__main__` dispatch -/

inductive Mode
  | track
  | plot
deriving DecidableEq, Repr

/-- The argparse namespace (the fields the tracked claims exercise). -/
structure Args where
  mode : Mode
  products_file : String
  output_file : String
  limit : Option Int
  headless : Bool
  plot_keyword : Option String
deriving DecidableEq, Repr

/-- The argparse defaults (lines 264-283). -/
def defaultArgs : Args :=
  { mode := .track
    products_file := "your_products.csv"
    output_file := "historical_products.csv"
    limit := none
    headless := false
    plot_keyword := none }

/-- Lines 197-199: `if args.limit and args.limit > 0:
products_df = products_df.head(args.limit)` — the head-truncation is
applied only when `limit` is present, truthy (non-zero) and positive. -/
def applyLimit (limit : Option Int) (queries : List String) : List String :=
  match limit with
  | none => queries
  | some n => if n ≠ 0 && n > 0 then queries.take n.toNat else queries

/-- The store path track mode persists to: `out_file = Path(args.output_file)`
(line 202), written by every `save_historical_data(out_file, ...)` call
(lines 237 and 259). -/
def track_store_path (args : Args) : String :=
  args.output_file

/-- What the `__main__` dispatch (lines 287-294) runs. -/
inductive Action
  | runTrack (store_path : String)
  | runPlot (master_file : String) (keyword : String) (output_file : String)
  | exitNoKeyword
deriving DecidableEq, Repr

/-- Line 290: `keyword = args.plot_keyword or input(...).strip()` — a missing
or empty `--plot_keyword` falls back to the stripped interactive input. -/
def effectiveKeyword (plot_keyword : Option String) (promptedRaw : String) : String :=
  match plot_keyword with
  | none => pyStrip promptedRaw
  | some s => if s = "" then pyStrip promptedRaw else s

/-- Lines 287-294: track mode runs `main` (persisting to
`args.output_file`); plot mode calls
`plot_price_history("results.csv", keyword, args.output_file)` — the master
file it loads is the hardcoded literal `"results.csv"`. -/
def dispatch (args : Args) (promptedRaw : String) : Action :=
  match args.mode with
  | .track => .runTrack (track_store_path args)
  | .plot =>
    let keyword := effectiveKeyword args.plot_keyword promptedRaw
    if keyword ≠ "" then .runPlot "results.csv" keyword args.output_file
    else .exitNoKeyword

/-! ### The scheduler loop

Lines 225-241: for each query (of the possibly limited list), run
`check_product_existence`, concat the one-row result onto the accumulated
DataFrame, and persist the whole accumulated DataFrame
(`save_historical_data`) before moving on.  The state tracks the
accumulated rows and the sequence of persisted snapshots, in order. -/

structure LoopState where
  historical : List ProductData
  saves : List (List ProductData)
deriving DecidableEq, Repr

/-- The per-query iteration of `main`'s for-loop.  `fetch` is the oracle
giving each query's fetch outcome; the driver is initialized (the loop is
only reached after `uc.Chrome(...)` succeeds, line 219). -/
def runLoop (module_ts : String) (fetch : String → FetchOutcome) :
    LoopState → List String → LoopState
  | st, [] => st
  | st, q :: qs =>
    let result := check_product_existence module_ts true q (fetch q)
    let hist := st.historical ++ [result]
    runLoop module_ts fetch { historical := hist, saves := st.saves ++ [hist] } qs

/-- The results the loop produces, one per processed query, in order. -/
def loopResults (module_ts : String) (fetch : String → FetchOutcome)
    (queries : List String) : List ProductData :=
  queries.map fun q => check_product_existence module_ts true q (fetch q)

/-- The snapshots persisted while processing results `rs` on top of
previously loaded rows `init`: one snapshot per check, each holding the
previously loaded rows plus every result produced so far. -/
def loopSnapshots (init : List ProductData) : List ProductData → List (List ProductData)
  | [] => []
  | r :: rs => (init ++ [r]) :: loopSnapshots (init ++ [r]) rs

/-! ### Concrete sample data used to exercise the model -/

/-- A fixed module-load timestamp for concrete runs. -/
def sampleTs : String := "2025-01-01 10:00:00"

/-- An auction listing: its attributes block mentions bids, yet it also
carries a perfectly well-formed price span. -/
def auctionCard : Card :=
  { attributesBlock := some "3 bids · 2d 4h"
    priceSpans := ["$12.00"]
    titleDiv := some "Auction Thing"
    imageLinkHref := some "https://www.ebay.com/itm/auction" }

/-- A non-auction card whose only price span is a bid amount. -/
def bidPriceCard : Card :=
  { attributesBlock := none
    priceSpans := ["Current bid: $12.00"]
    titleDiv := some "Bid Thing"
    imageLinkHref := none }

/-- A non-auction card with no price span at all. -/
def noPriceCard : Card :=
  { attributesBlock := none
    priceSpans := []
    titleDiv := some "Bare Listing"
    imageLinkHref := none }

/-- A well-formed buy-it-now card. -/
def goodCard : Card :=
  { attributesBlock := some "Brand New"
    priceSpans := ["$34.99"]
    titleDiv := some "Widget A Deluxe"
    imageLinkHref := some "https://www.ebay.com/itm/1" }

/-! ### Helper lemmas -/

/-- Every result the extractor can build carries the module-load timestamp:
no branch of the card scan consults any other clock. -/
theorem extractResult_timestamp (ts q : String) :
    ∀ cards : List Card, (extractResult ts q cards).timestamp = ts := by
  intro cards
  induction cards with
  | nil => rfl
  | cons c rest ih =>
    cases h : isAuctionCard c with
    | true => simpa [extractResult, h] using ih
    | false =>
      cases hp : findPrice c.priceSpans with
      | none => simpa [extractResult, h, hp] using ih
      | some p => simp [extractResult, h, hp, foundResult]

/-- Every branch of `check_product_existence` stamps the row with the
module-load timestamp. -/
theorem check_product_existence_timestamp (ts q : String) (d : Bool)
    (o : FetchOutcome) : (check_product_existence ts d q o).timestamp = ts := by
  cases d with
  | false => simp [check_product_existence, defaultProductData]
  | true =>
    cases o with
    | ok cards =>
      simpa [check_product_existence] using extractResult_timestamp ts q cards
    | timeout => simp [check_product_existence, defaultProductData]
    | fault msg => simp [check_product_existence, defaultProductData]

/-- There is one snapshot per result. -/
theorem loopSnapshots_length :
    ∀ (rs : List ProductData) (init : List ProductData),
      (loopSnapshots init rs).length = rs.length := by
  intro rs
  induction rs with
  | nil => intro init; rfl
  | cons r rs ih => intro init; simp [loopSnapshots, ih]

/-- The snapshot taken after the `i`-th check holds the previously loaded
rows followed by the first `i+1` results. -/
theorem loopSnapshots_getD :
    ∀ (rs : List ProductData) (init : List ProductData) (i : Nat),
      i < rs.length →
      (loopSnapshots init rs).getD i [] = init ++ rs.take (i + 1) := by
  intro rs
  induction rs with
  | nil => intro init i hi; simp at hi
  | cons r rs ih =>
    intro init i hi
    cases i with
    | zero => simp [loopSnapshots]
    | succ j =>
      have hj : j < rs.length := by simpa using hi
      calc (loopSnapshots init (r :: rs)).getD (j + 1) []
          = (loopSnapshots (init ++ [r]) rs).getD j [] := by
            simp [loopSnapshots]
        _ = init ++ [r] ++ List.take (j + 1) rs := ih (init ++ [r]) j hj
        _ = init ++ List.take (j + 1 + 1) (r :: rs) := by
            simp [List.take_succ_cons, List.append_assoc]

/-- Full characterisation of the scheduler loop: starting from state
`st`, processing `qs` appends one result per query to the accumulated rows
and persists the accumulated rows once after every check. -/
theorem runLoop_spec (ts : String) (f : String → FetchOutcome) :
    ∀ (qs : List String) (st : LoopState),
      runLoop ts f st qs =
        { historical := st.historical ++ loopResults ts f qs
          saves := st.saves ++ loopSnapshots st.historical (loopResults ts f qs) } := by
  intro qs
  induction qs with
  | nil => intro st; simp [runLoop, loopResults, loopSnapshots]
  | cons q qs ih =>
    intro st
    show runLoop ts f
        ⟨st.historical ++ [check_product_existence ts true q (f q)],
         st.saves ++ [st.historical ++ [check_product_existence ts true q (f q)]]⟩ qs = _
    rw [ih]
    simp [loopResults, loopSnapshots, List.append_assoc]

/-! ### Claims -/

/-- C1, counterexample: a query whose fetch times out is recorded with
`status = "ok"`, not `status = "error"` — the exception handlers of lines
133-136 never override the dataclass default status. -/
theorem C1_counterexample :
    (check_product_existence sampleTs true "Widget A" FetchOutcome.timeout).status = "ok"
    ∧ (check_product_existence sampleTs true "Widget A" FetchOutcome.timeout).status ≠ "error"
    ∧ (check_product_existence sampleTs true "Widget A" FetchOutcome.timeout).notes
        = some "Timeout waiting for elements." := by
  decide

/-- C1 (amended): for every query whose fetch fails (timeout or any other
browser/transport fault), the recorded CheckResult is exactly the
default-constructed row with `is_found = false` and the failure message in
`notes` — built without consulting any listing cards, so the extractor is
bypassed — while `status` is left at its default `"ok"`; and the scheduler
loop still appends one row per query, so processing continues past the
failing query to the end of the list. -/
theorem C1_fetch_failure_recorded (module_ts q msg : String)
    (fetch : String → FetchOutcome) (init : List ProductData) (qs : List String) :
    check_product_existence module_ts true q FetchOutcome.timeout =
      { defaultProductData module_ts q with
        is_found := false, notes := some "Timeout waiting for elements." }
    ∧ check_product_existence module_ts true q (FetchOutcome.fault msg) =
      { defaultProductData module_ts q with
        is_found := false, notes := some ("Error: " ++ msg) }
    ∧ (check_product_existence module_ts true q FetchOutcome.timeout).status = "ok"
    ∧ (check_product_existence module_ts true q (FetchOutcome.fault msg)).status = "ok"
    ∧ (runLoop module_ts fetch ⟨init, []⟩ qs).historical.length
        = init.length + qs.length := by
  refine ⟨rfl, rfl, rfl, rfl, ?_⟩
  rw [runLoop_spec]
  simp [loopResults]

/-- C2: with the default CLI configuration, plot mode loads the hardcoded
master file `"results.csv"` while track mode persists its rows to the
configured historical path `"historical_products.csv"`; indeed for every
argument namespace, plot mode's master file is the literal `"results.csv"`,
so the rows track mode appends to the configured store are not what the
reporter reads. -/
theorem C2_plot_master_is_hardcoded :
    dispatch { defaultArgs with mode := Mode.plot, plot_keyword := some "widget" } ""
      = Action.runPlot "results.csv" "widget" "historical_products.csv"
    ∧ track_store_path defaultArgs = "historical_products.csv"
    ∧ ("results.csv" : String) ≠ "historical_products.csv"
    ∧ ∀ a : Args, ∃ keyword output,
        dispatch { a with mode := Mode.plot, plot_keyword := some "widget" } ""
          = Action.runPlot "results.csv" keyword output := by
  refine ⟨by decide, by decide, by decide, ?_⟩
  intro a
  exact ⟨"widget", a.output_file, rfl⟩

/-- C3, counterexample: the price text `"Free"` is non-null and strips to
the empty string, which `float` cannot parse — the cleaning lambda of line
155 raises `ValueError` instead of mapping the row to a null cleaned
price. -/
theorem C3_counterexample :
    stripNonNumeric "Free" = ""
    ∧ price_clean (some "Free") = PyResult.valueError
    ∧ price_clean (some "Free") ≠ PyResult.ok none := by
  decide

/-- C3 (amended): a price cell the CSV loader reads as missing (an empty
cell, or a default-NA text such as `"N/A"`) reaches the cleaning step as
null and is mapped to a null cleaned price; but a loaded price text that is
non-null and unparseable after stripping (such as `"Free"`) makes `float`
raise `ValueError`, so the reporter does not complete. -/
theorem C3_clean_null_or_raise (s cell : String)
    (hna : cell ∈ naValues)
    (hbad : pyFloat (stripNonNumeric s) = PyResult.valueError) :
    price_clean (read_cell cell) = PyResult.ok none
    ∧ price_clean none = PyResult.ok none
    ∧ price_clean (some s) = PyResult.valueError := by
  refine ⟨?_, rfl, ?_⟩
  · simp [read_cell, hna, price_clean]
  · simp [price_clean, hbad]

/-- C3, witness: the claim's own example `"N/A"` is loaded as missing and
cleaned to null, while the non-null unparseable text `"Free"` raises. -/
theorem C3_witness :
    price_clean (read_cell "N/A") = PyResult.ok none
    ∧ price_clean (some "Free") = PyResult.valueError := by
  have h := C3_clean_null_or_raise "Free" "N/A" (by decide) (by decide)
  exact ⟨h.1, h.2.2⟩

/-- C4: a card whose attributes block mentions `"bid"` is skipped — the
scan of the remaining cards is unchanged by its presence, so no `found=true`
result is ever sourced from it (alone, it yields the not-found result even
when it carries a well-formed price span). -/
theorem C4_auction_card_never_source (ts q : String) (c : Card) (rest : List Card)
    (h : isAuctionCard c = true) :
    extractResult ts q (c :: rest) = extractResult ts q rest
    ∧ (extractResult ts q [c]).is_found = false := by
  constructor
  · simp [extractResult, h]
  · simp [extractResult, h, notFoundResult, defaultProductData]

/-- C4, witness: the sample auction card carries the well-formed price span
`"$12.00"`, yet scanning it alone finds nothing and scanning it ahead of any
other cards is the same as not scanning it. -/
theorem C4_witness :
    isAuctionCard auctionCard = true
    ∧ findPrice auctionCard.priceSpans = some "$12.00"
    ∧ extractResult sampleTs "Widget" [auctionCard]
        = extractResult sampleTs "Widget" []
    ∧ (extractResult sampleTs "Widget" [auctionCard]).is_found = false := by
  have h := C4_auction_card_never_source sampleTs "Widget" auctionCard [] (by decide)
  exact ⟨by decide, by decide, h.1, h.2⟩

/-- C5: a price span is accepted only when its text contains `"$"` and its
lowered text does not contain `"bid"`; and a card all of whose price spans
mention `"bid"` has no accepted price, so the scan skips the whole card. -/
theorem C5_bid_price_span_rejected (ts q t : String) (spans : List String)
    (c : Card) (rest : List Card)
    (hfind : findPrice spans = some t)
    (hbid : ∀ s ∈ c.priceSpans, hasSub (lowerStr s) "bid" = true) :
    (hasSub t "$" = true ∧ hasSub (lowerStr t) "bid" = false)
    ∧ findPrice c.priceSpans = none
    ∧ extractResult ts q (c :: rest) = extractResult ts q rest := by
  rw [findPrice] at hfind
  have hp := List.find?_some hfind
  simp only [Bool.and_eq_true, Bool.not_eq_true', decide_eq_true_eq] at hp
  have hnone : findPrice c.priceSpans = none := by
    rw [findPrice, List.find?_eq_none]
    intro x hx
    simp [hbid x hx]
  refine ⟨⟨hp.1.2, hp.2⟩, hnone, ?_⟩
  cases hA : isAuctionCard c with
  | true => simp [extractResult, hA]
  | false => simp [extractResult, hA, hnone]

/-- C5, witness: the span text `"Current bid: $12.00"` contains a currency
symbol but mentions `"bid"`, so the sample bid-price card yields no price
and is skipped entirely, while `"$34.99"` is an accepted span text. -/
theorem C5_witness :
    (hasSub "$34.99" "$" = true ∧ hasSub (lowerStr "$34.99") "bid" = false)
    ∧ findPrice bidPriceCard.priceSpans = none
    ∧ extractResult sampleTs "Widget" [bidPriceCard]
        = extractResult sampleTs "Widget" [] :=
  C5_bid_price_span_rejected sampleTs "Widget" "$34.99" ["$34.99"] bidPriceCard []
    (by decide) (by decide)

/-- C6: the scan returns immediately with the first card passing both
filters — independently of every later card — reporting that card's title,
URL, price and the notes `"Product found. Price: <price>"`; when the first
card has no accepted price it is skipped and a qualifying second card's
data is reported; and when no card qualifies the result is `found=false`
with notes `"Only auctions or no valid listings found."`. -/
theorem C6_first_qualifying_card_wins (ts q : String) :
    (∀ (c : Card) (rest : List Card) (p : String),
        isAuctionCard c = false → findPrice c.priceSpans = some p →
        extractResult ts q (c :: rest) = foundResult ts c p)
    ∧ (∀ (c1 c2 : Card) (rest : List Card) (p : String),
        findPrice c1.priceSpans = none → isAuctionCard c2 = false →
        findPrice c2.priceSpans = some p →
        extractResult ts q (c1 :: c2 :: rest) = foundResult ts c2 p)
    ∧ (∀ cards : List Card,
        (∀ c ∈ cards, isAuctionCard c = true ∨ findPrice c.priceSpans = none) →
        extractResult ts q cards = notFoundResult ts q)
    ∧ (∀ (c : Card) (p : String),
        (foundResult ts c p).is_found = true
        ∧ (foundResult ts c p).product_name = c.titleDiv.getD "Unknown Product"
        ∧ (foundResult ts c p).product_url = c.imageLinkHref
        ∧ (foundResult ts c p).price = some p
        ∧ (foundResult ts c p).notes = some ("Product found. Price: " ++ p))
    ∧ (notFoundResult ts q).is_found = false
    ∧ (notFoundResult ts q).notes = some "Only auctions or no valid listings found." := by
  refine ⟨?_, ?_, ?_, fun c p => ⟨rfl, rfl, rfl, rfl, rfl⟩, rfl, rfl⟩
  · intro c rest p ha hp
    simp [extractResult, ha, hp]
  · intro c1 c2 rest p h1 ha hp
    cases hA : isAuctionCard c1 with
    | true => simp [extractResult, hA, ha, hp]
    | false => simp [extractResult, hA, h1, ha, hp]
  · intro cards h
    induction cards with
    | nil => rfl
    | cons c cs ih =>
      have hrest : extractResult ts q cs = notFoundResult ts q :=
        ih fun x hx => h x (List.mem_cons_of_mem _ hx)
      rcases h c (List.mem_cons_self c cs) with ha | hp
      · simp [extractResult, ha, hrest]
      · cases hA : isAuctionCard c with
        | true => simp [extractResult, hA, hrest]
        | false => simp [extractResult, hA, hp, hrest]

/-- C6, witness: with a first card lacking any price span and a second
well-formed card, the result reports the second card's title, URL and
price. -/
theorem C6_witness :
    findPrice noPriceCard.priceSpans = none
    ∧ isAuctionCard goodCard = false
    ∧ extractResult sampleTs "Widget A" [noPriceCard, goodCard]
        = foundResult sampleTs goodCard "$34.99"
    ∧ (foundResult sampleTs goodCard "$34.99").product_name = "Widget A Deluxe"
    ∧ (foundResult sampleTs goodCard "$34.99").notes
        = some "Product found. Price: $34.99" := by
  have h := (C6_first_qualifying_card_wins sampleTs "Widget A").2.1
    noPriceCard goodCard [] "$34.99" (by decide) (by decide) (by decide)
  exact ⟨by decide, by decide, h, by decide, by decide⟩

/-- C7: a configured positive limit `n` keeps exactly the first
`min(n, len)` queries, in file order, and the loop then performs exactly
that many iterations (one persisted snapshot each); with the list
`["Widget A", "Widget B"]` and limit 1, only `"Widget A"` survives the cut
and exactly its one CheckResult is produced. -/
theorem C7_limit_caps_iterations (n : Int) (qs : List String) (ts : String)
    (f : String → FetchOutcome) (init : List ProductData)
    (hn : 0 < n) (hqs : qs ≠ []) :
    applyLimit (some n) qs = qs.take n.toNat
    ∧ (applyLimit (some n) qs).length = min n.toNat qs.length
    ∧ (runLoop ts f ⟨init, []⟩ (applyLimit (some n) qs)).saves.length
        = min n.toNat qs.length
    ∧ applyLimit (some 1) ["Widget A", "Widget B"] = ["Widget A"]
    ∧ "Widget B" ∉ applyLimit (some 1) ["Widget A", "Widget B"]
    ∧ loopResults ts f (applyLimit (some 1) ["Widget A", "Widget B"])
        = [check_product_existence ts true "Widget A" (f "Widget A")] := by
  have htake : applyLimit (some n) qs = qs.take n.toNat := by
    simp [applyLimit, hn, hn.ne']
  refine ⟨htake, ?_, ?_, by decide, by decide, rfl⟩
  · simp [htake, List.length_take]
  · rw [runLoop_spec]
    simp [htake, loopSnapshots_length, loopResults, List.length_take]

/-- C7, witness: the scenario of the claim, with limit 1 over two queries. -/
theorem C7_witness :
    applyLimit (some 1) ["Widget A", "Widget B"] = ["Widget A"]
    ∧ (applyLimit (some 1) ["Widget A", "Widget B"]).length = 1
    ∧ (runLoop sampleTs (fun _ => FetchOutcome.timeout) ⟨[], []⟩
        (applyLimit (some 1) ["Widget A", "Widget B"])).saves.length = 1
    ∧ "Widget B" ∉ applyLimit (some 1) ["Widget A", "Widget B"] := by
  have h := C7_limit_caps_iterations 1 ["Widget A", "Widget B"] sampleTs
    (fun _ => FetchOutcome.timeout) [] (by decide) (by decide)
  refine ⟨h.2.2.2.1, ?_, ?_, h.2.2.2.2.1⟩
  · rw [h.2.1]; decide
  · rw [h.2.2.1]; decide

/-- C8: processing any query list appends exactly one row per query on top
of the loaded rows (whatever each query's outcome), and the persisted
snapshots are exactly one per processed query, the `i`-th holding the loaded
rows plus the first `i+1` results — so a crash loses at most the in-flight
check. -/
theorem C8_one_row_per_query_persisted (ts : String) (f : String → FetchOutcome)
    (init : List ProductData) (qs : List String) :
    (runLoop ts f ⟨init, []⟩ qs).historical = init ++ loopResults ts f qs
    ∧ (runLoop ts f ⟨init, []⟩ qs).historical.length = init.length + qs.length
    ∧ (runLoop ts f ⟨init, []⟩ qs).saves = loopSnapshots init (loopResults ts f qs)
    ∧ (runLoop ts f ⟨init, []⟩ qs).saves.length = qs.length
    ∧ ∀ i, i < qs.length →
        (runLoop ts f ⟨init, []⟩ qs).saves.getD i []
          = init ++ (loopResults ts f qs).take (i + 1) := by
  have h := runLoop_spec ts f qs ⟨init, []⟩
  refine ⟨by simp [h], by simp [h, loopResults], by simp [h],
    by simp [h, loopSnapshots_length, loopResults], ?_⟩
  intro i hi
  have hlen : i < (loopResults ts f qs).length := by simpa [loopResults] using hi
  have hg := loopSnapshots_getD (loopResults ts f qs) init i hlen
  simpa [h] using hg

/-- C8, witness: a two-query run whose first persisted snapshot holds
exactly the first result. -/
theorem C8_witness :
    (runLoop sampleTs (fun _ => FetchOutcome.timeout) ⟨[], []⟩ ["a", "b"]).saves.getD 0 []
      = (loopResults sampleTs (fun _ => FetchOutcome.timeout) ["a", "b"]).take 1 := by
  have h := (C8_one_row_per_query_persisted sampleTs (fun _ => FetchOutcome.timeout)
    [] ["a", "b"]).2.2.2.2 0 (by decide)
  simpa using h

/-- C9: loading a stored file and persisting the loaded rows unchanged
keeps the logical content intact — loading the rewritten file yields the
same rows with the same field values in the same order. -/
theorem C9_load_persist_roundtrip (file : List (List String)) :
    read_csv (to_csv (read_csv file)) = read_csv file := by
  have hc : ∀ c : String, read_cell (write_cell (read_cell c)) = read_cell c := by
    intro c
    by_cases h : c ∈ naValues
    · have h1 : read_cell c = none := by simp [read_cell, h]
      rw [h1]
      decide
    · simp [read_cell, write_cell, h]
  simp [read_csv, to_csv, List.map_map, Function.comp_def, hc]

/-- C10: every row a run produces is stamped with the single module-load
timestamp — the dataclass default is evaluated once when the module loads —
so any two rows of the same run carry equal timestamps, regardless of which
query or iteration produced them. -/
theorem C10_shared_run_timestamp (ts : String) (f : String → FetchOutcome)
    (qs : List String) (r1 r2 : ProductData)
    (h1 : r1 ∈ loopResults ts f qs) (h2 : r2 ∈ loopResults ts f qs) :
    r1.timestamp = ts ∧ r2.timestamp = ts ∧ r1.timestamp = r2.timestamp := by
  have key : ∀ r ∈ loopResults ts f qs, r.timestamp = ts := by
    intro r hr
    rw [loopResults] at hr
    obtain ⟨x, hx, rfl⟩ := List.mem_map.mp hr
    exact check_product_existence_timestamp ts x true (f x)
  exact ⟨key r1 h1, key r2 h2, (key r1 h1).trans (key r2 h2).symm⟩

/-- C10, witness: two rows of the same two-query run share the module-load
timestamp. -/
theorem C10_witness :
    (check_product_existence sampleTs true "a" FetchOutcome.timeout).timestamp = sampleTs
    ∧ (check_product_existence sampleTs true "b" FetchOutcome.timeout).timestamp = sampleTs
    ∧ (check_product_existence sampleTs true "a" FetchOutcome.timeout).timestamp
        = (check_product_existence sampleTs true "b" FetchOutcome.timeout).timestamp :=
  C10_shared_run_timestamp sampleTs (fun _ => FetchOutcome.timeout) ["a", "b"] _ _
    (by simp [loopResults]) (by simp [loopResults])

end PriceTracker
